import Mathlib

/-!
Shallow embedding of the SoilScope soil-analyzer UI workflow
(`src/components/Header.tsx`: the `Header` presentation shell and the
`SoilAnalyzer` workflow controller).

React `useState` fields become record fields; each event handler becomes a
pure function from state to state.  A mocked asynchronous operation (timer
callback) is modelled as its net effect: the trigger plus the timeout
completion, composed into one function.  `Math.random()` draws are passed in
as rational parameters in `[0, 1)`; `Math.round` and `Math.floor` are
modelled on `ℚ`.  Toast notifications are collected in a `toasts` log field,
and `URL.revokeObjectURL` calls are collected in a `revokedUrls` log field,
so that claims about reported messages and released preview references can
be stated.
-/

/-- Kind of a toast notification (`toast.error` / `toast.success` /
`toast.info` from the sonner library). -/
inductive ToastKind where
  | error
  | success
  | info
deriving Repr, DecidableEq

/-- A toast notification: its kind and its message text. -/
structure Toast where
  kind : ToastKind
  msg : String
deriving Repr, DecidableEq

/-- Shorthand for `toast.error(msg)`. -/
def Toast.error (msg : String) : Toast := ⟨ToastKind.error, msg⟩

/-- Shorthand for `toast.success(msg)`. -/
def Toast.success (msg : String) : Toast := ⟨ToastKind.success, msg⟩

/-- Shorthand for `toast.info(msg)`. -/
def Toast.info (msg : String) : Toast := ⟨ToastKind.info, msg⟩

/-- `interface WeatherData` from the source. -/
structure WeatherData where
  temperature : Int
  humidity : Int
  precipitation : Int
  description : String
deriving Repr, DecidableEq

/-- `interface SoilResult` from the source. -/
structure SoilResult where
  type : String
  confidence : Int
  description : String
  color : String
deriving Repr, DecidableEq

/-- `interface CropSuggestion` from the source. -/
structure CropSuggestion where
  name : String
  suitability : Int
  season : String
  reason : String
  details : String
  saved : Bool
deriving Repr, DecidableEq

/-- `interface LocationData` from the source (optional `city`/`state`). -/
structure LocationData where
  lat : ℚ
  lng : ℚ
  city : Option String
  state : Option String
deriving Repr, DecidableEq

/-- The part of a DOM `File` object the workflow inspects: name, MIME type
and byte size. -/
structure FileData where
  name : String
  type : String
  size : Nat
deriving Repr, DecidableEq

/-- One candidate of the fixed `soilTypes` array inside `analyzeSoil`
(its entries carry `type`, `color`, `description`; `confidence` is added
when the result is committed). -/
structure SoilTypeInfo where
  type : String
  color : String
  description : String
deriving Repr, DecidableEq, Inhabited

/-- The `SoilAnalyzer` component state: one field per `useState` hook, plus
the two instrumentation logs `toasts` and `revokedUrls`. -/
structure AnalyzerState where
  selectedFile : Option FileData
  previewUrl : String
  isDragging : Bool
  location : Option LocationData
  manualLocation : String × String
  showManualLocation : Bool
  locationLoading : Bool
  weather : Option WeatherData
  weatherLoading : Bool
  analyzing : Bool
  soilResult : Option SoilResult
  cropSuggestions : List CropSuggestion
  suggestingCrops : Bool
  showImageZoom : Bool
  showMapPicker : Bool
  showExportDialog : Bool
  exportEmail : String
  selectedCropsForComparison : List String
  expandedCrop : Option String
  toasts : List Toast
  revokedUrls : List String
deriving Repr, DecidableEq

/-- The initial `SoilAnalyzer` state (the `useState` initialisers). -/
def initialAnalyzerState : AnalyzerState where
  selectedFile := none
  previewUrl := ""
  isDragging := false
  location := none
  manualLocation := ("", "")
  showManualLocation := false
  locationLoading := false
  weather := none
  weatherLoading := false
  analyzing := false
  soilResult := none
  cropSuggestions := []
  suggestingCrops := false
  showImageZoom := false
  showMapPicker := false
  showExportDialog := false
  exportEmail := ""
  selectedCropsForComparison := []
  expandedCrop := none
  toasts := []
  revokedUrls := []

/-- Append a toast notification to the log. -/
def pushToast (t : Toast) (s : AnalyzerState) : AnalyzerState :=
  { s with toasts := s.toasts ++ [t] }

/-- JavaScript `Math.floor` on a rational. -/
def jsFloor (q : ℚ) : Int := ⌊q⌋

/-- JavaScript `Math.round` on a rational: floor of `q + 1/2`. -/
def jsRound (q : ℚ) : Int := ⌊q + 1 / 2⌋

/-- JavaScript `String.prototype.startsWith`, modelled on character data. -/
def strStartsWith (s p : String) : Bool := p.data.isPrefixOf s.data

/-- JavaScript `String.prototype.trim`, modelled on character data:
whitespace is stripped from both ends. -/
def strTrim (s : String) : String :=
  String.mk
    (((s.data.dropWhile Char.isWhitespace).reverse.dropWhile
      Char.isWhitespace).reverse)

/-- `handleFileSelect(file)`: rejects non-image MIME types and files over
10 MB with an error toast, otherwise stores the file, stores the object URL
produced for it (passed in as `url`), and reports success. -/
def handleFileSelect (file : FileData) (url : String) (s : AnalyzerState) :
    AnalyzerState :=
  if !(strStartsWith file.type "image/") then
    pushToast (Toast.error "Please select a valid image file (JPEG or PNG)") s
  else if 10 * 1024 * 1024 < file.size then
    pushToast (Toast.error "Image size must be less than 10MB") s
  else
    pushToast (Toast.success "Image uploaded successfully")
      { s with selectedFile := some file, previewUrl := url }

/-- `clearImage()`: drops the file, revokes a non-empty preview URL, clears
the soil result and the crop suggestions, and reports an info toast. -/
def clearImage (s : AnalyzerState) : AnalyzerState :=
  let s1 := { s with selectedFile := none }
  let s2 :=
    if s1.previewUrl ≠ "" then
      { s1 with revokedUrls := s1.revokedUrls ++ [s1.previewUrl], previewUrl := "" }
    else s1
  let s3 := { s2 with soilResult := none, cropSuggestions := [] }
  pushToast (Toast.info "Image cleared") s3

/-- `handleManualLocationSubmit()`: rejects an empty (trimmed) city name,
otherwise commits mock coordinates derived from two random draws together
with the entered city/state and closes the manual-entry panel. -/
def handleManualLocationSubmit (r1 r2 : ℚ) (s : AnalyzerState) :
    AnalyzerState :=
  if strTrim s.manualLocation.1 = "" then
    pushToast (Toast.error "Please enter a city name") s
  else
    pushToast (Toast.success ("Location set to " ++ s.manualLocation.1))
      { s with
        location := some
          { lat := 40.7128 + (r1 - 0.5) * 10
            lng := -74.0060 + (r2 - 0.5) * 10
            city := some s.manualLocation.1
            state := some s.manualLocation.2 }
        showManualLocation := false }

/-- `fetchWeather()` including its timeout completion: rejected without a
location; otherwise commits a mock `WeatherData` built from four random
draws and clears the loading flag. -/
def fetchWeather (r1 r2 r3 r4 : ℚ) (s : AnalyzerState) : AnalyzerState :=
  if s.location = none then
    pushToast (Toast.error "Please set location first") s
  else
    let s1 := { s with weatherLoading := true }
    pushToast (Toast.success "Weather data fetched successfully")
      { s1 with
        weather := some
          { temperature := jsRound (15 + r1 * 20)
            humidity := jsRound (40 + r2 * 40)
            precipitation := jsRound (r3 * 10)
            description :=
              (["Sunny", "Partly Cloudy", "Overcast", "Light Rain"]).getD
                (Int.toNat (jsFloor (r4 * 4))) "" }
        weatherLoading := false }

/-- The fixed `soilTypes` candidate array inside `analyzeSoil`. -/
def soilTypes : List SoilTypeInfo :=
  [ { type := "Clay Loam", color := "#8B4513"
      description := "Rich, fertile soil ideal for most crops" },
    { type := "Sandy Loam", color := "#DEB887"
      description := "Well-draining soil good for root vegetables" },
    { type := "Silt Loam", color := "#A0522D"
      description := "Nutrient-rich soil with good water retention" },
    { type := "Clay", color := "#654321"
      description := "Heavy soil that retains water well" } ]

/-- `analyzeSoil()` including its timeout completion: rejected without an
image; otherwise picks `soilTypes[Math.floor(ir*4)]`, computes
`confidence = Math.round(75 + rc*20)`, commits the `SoilResult` and clears
the analyzing flag. -/
def analyzeSoil (ir rc : ℚ) (s : AnalyzerState) : AnalyzerState :=
  if s.selectedFile = none then
    pushToast (Toast.error "Please upload an image first") s
  else
    let s1 := pushToast (Toast.info "Analyzing soil composition...")
      { s with analyzing := true }
    let selectedSoil := soilTypes.getD (Int.toNat (jsFloor (ir * 4))) default
    let confidence := jsRound (75 + rc * 20)
    pushToast
      (Toast.success ("Soil identified as " ++ selectedSoil.type ++ " (" ++
        toString confidence ++ "% confidence)"))
      { s1 with
        soilResult := some
          { type := selectedSoil.type
            confidence := confidence
            description := selectedSoil.description
            color := selectedSoil.color }
        analyzing := false }

/-- The fixed `crops` array inside `suggestCrops`. -/
def cropsList : List CropSuggestion :=
  [ { name := "Tomatoes", suitability := 92, season := "Summer"
      reason := "Excellent match for clay loam soil"
      details := "Clay loam provides ideal drainage and nutrient retention for tomatoes. Current weather conditions are perfect for planting."
      saved := false },
    { name := "Carrots", suitability := 88, season := "Spring/Fall"
      reason := "Good root development in this soil type"
      details := "The soil structure allows for proper root expansion. Temperature and humidity levels support healthy growth."
      saved := false },
    { name := "Lettuce", suitability := 85, season := "Spring/Fall"
      reason := "Thrives in well-draining soil"
      details := "Quick-growing crop suitable for current soil and weather conditions. Low maintenance requirements."
      saved := false },
    { name := "Peppers", suitability := 90, season := "Summer"
      reason := "Heat-loving crop suited to current conditions"
      details := "Warm weather and soil type create ideal growing conditions. Expect high yield potential."
      saved := false } ]

/-- `suggestCrops()` including its timeout completion: rejected without a
soil result (first guard) or without weather (second guard), each with its
own error message; otherwise commits the fixed 4-entry crop list and clears
the suggesting flag. -/
def suggestCrops (s : AnalyzerState) : AnalyzerState :=
  if s.soilResult = none then
    pushToast (Toast.error "Please analyze soil first") s
  else if s.weather = none then
    pushToast (Toast.error "Weather data required for crop suggestions") s
  else
    let s1 := pushToast (Toast.info "Generating crop suggestions...")
      { s with suggestingCrops := true }
    pushToast
      (Toast.success ("Found " ++ toString cropsList.length ++ " crop suggestions"))
      { s1 with cropSuggestions := cropsList, suggestingCrops := false }

/-- The list transformation inside `toggleCropSaved`: flip `saved` on every
entry whose `name` matches, keep every other entry as is. -/
def toggleList (cropName : String) (l : List CropSuggestion) :
    List CropSuggestion :=
  l.map fun crop =>
    if crop.name == cropName then { crop with saved := !crop.saved } else crop

/-- `toggleCropSaved(cropName)`: applies `toggleList` to the suggestion
list; the toast is emitted only when `find` locates a crop of that name
in the pre-toggle list. -/
def toggleCropSaved (cropName : String) (s : AnalyzerState) : AnalyzerState :=
  let s1 := { s with cropSuggestions := toggleList cropName s.cropSuggestions }
  match s.cropSuggestions.find? (fun c => c.name == cropName) with
  | some crop =>
      pushToast
        (Toast.success (crop.name ++ " " ++
          (if crop.saved then "removed from" else "added to") ++ " your plans"))
        s1
  | none => s1

/-- `resetAll()`: `clearImage` followed by resetting location, manual entry,
weather, soil result, crop suggestions, comparison selection and expanded
crop, with a final info toast. -/
def resetAll (s : AnalyzerState) : AnalyzerState :=
  let s1 := clearImage s
  pushToast (Toast.info "All data cleared")
    { s1 with
      location := none
      manualLocation := ("", "")
      showManualLocation := false
      weather := none
      soilResult := none
      cropSuggestions := []
      selectedCropsForComparison := []
      expandedCrop := none }

/-- The workflow-entity projection of a state: uploaded image (file handle
and preview reference), location, weather snapshot, soil result and crop
suggestions.  Two states with equal projections agree on every workflow
entity. -/
def entityState (s : AnalyzerState) :
    Option FileData × String × Option LocationData × Option WeatherData ×
      Option SoilResult × List CropSuggestion :=
  (s.selectedFile, s.previewUrl, s.location, s.weather, s.soilResult,
    s.cropSuggestions)

/-- `interface Notification` from the `Header` component. -/
structure Notification where
  id : String
  title : String
  message : String
  timestamp : String
  read : Bool
deriving Repr, DecidableEq

/-- The `Header` component state: one field per `useState` hook (the
viewport-derived `isMobile` flag is included for completeness), plus a
toast log. -/
structure HeaderState where
  searchValue : String
  isSettingsOpen : Bool
  weatherAlerts : Bool
  notifications : List Notification
  isNotificationsOpen : Bool
  isMobile : Bool
  toasts : List Toast
deriving Repr, DecidableEq

/-- The initial `Header` state (the `useState` initialisers, with the two
seeded notifications). -/
def initialHeaderState : HeaderState where
  searchValue := ""
  isSettingsOpen := false
  weatherAlerts := true
  notifications :=
    [ { id := "1", title := "Soil Analysis Complete"
        message := "Your clay soil analysis is ready for review"
        timestamp := "2 min ago", read := false },
      { id := "2", title := "Weather Alert"
        message := "Heavy rain expected in your area tomorrow"
        timestamp := "1 hour ago", read := false } ]
  isNotificationsOpen := false
  isMobile := false
  toasts := []

/-- The settings button: `setIsSettingsOpen(true)`. -/
def openSettings (s : HeaderState) : HeaderState :=
  { s with isSettingsOpen := true }

/-- The weather-alerts `Switch` is live-bound: `onCheckedChange` writes the
new value straight into `weatherAlerts`. -/
def setWeatherAlertsAction (v : Bool) (s : HeaderState) : HeaderState :=
  { s with weatherAlerts := v }

/-- The settings dialog Cancel button: `setIsSettingsOpen(false)` and
nothing else. -/
def cancelSettings (s : HeaderState) : HeaderState :=
  { s with isSettingsOpen := false }

/-- `handleSettingsSave()`: closes the dialog and reports a success toast. -/
def handleSettingsSave (s : HeaderState) : HeaderState :=
  { s with isSettingsOpen := false
           toasts := s.toasts ++ [Toast.success "Settings saved successfully"] }

/-! ## Sample data used by counterexamples and witnesses -/

/-- A 2 MB JPEG file, accepted by `handleFileSelect`. -/
def sampleFile : FileData where
  name := "soil.jpg"
  type := "image/jpeg"
  size := 2 * 1024 * 1024

/-- A non-image file, rejected by `handleFileSelect`. -/
def badFile : FileData where
  name := "report.pdf"
  type := "application/pdf"
  size := 100

/-- A concrete soil result, as `analyzeSoil` could have produced it. -/
def sampleSoil : SoilResult where
  type := "Clay"
  confidence := 80
  description := "Heavy soil that retains water well"
  color := "#654321"

/-- A concrete weather snapshot, as `fetchWeather` could have produced it. -/
def sampleWeather : WeatherData where
  temperature := 25
  humidity := 60
  precipitation := 5
  description := "Sunny"

/-- A state in which an image has been uploaded and analyzed and weather has
been fetched: `analyzeSoil` and `suggestCrops` are both enabled here. -/
def analyzedState : AnalyzerState :=
  { initialAnalyzerState with
    selectedFile := some sampleFile
    previewUrl := "blob:1"
    weather := some sampleWeather
    soilResult := some sampleSoil
    cropSuggestions := cropsList }


/-! ## Helper lemmas -/

/-- Toggling a name that occurs nowhere in the list leaves the list as is. -/
lemma toggleList_eq_of_not_mem (n : String) :
    ∀ l : List CropSuggestion, n ∉ l.map CropSuggestion.name →
      toggleList n l = l := by
  intro l
  induction l with
  | nil => intro _; rfl
  | cons c t ih =>
    intro h
    simp only [List.map_cons, List.mem_cons, not_or] at h
    have hne : (c.name == n) = false :=
      beq_eq_false_iff_ne.2 fun e => h.1 e.symm
    simp only [toggleList, List.map_cons] at ih ⊢
    rw [hne]
    simp only [Bool.false_eq_true, if_false, ih h.2]

/-- Toggling the same name twice restores the original list. -/
lemma toggleList_toggleList (n : String) (l : List CropSuggestion) :
    toggleList n (toggleList n l) = l := by
  induction l with
  | nil => rfl
  | cons c t ih =>
    simp only [toggleList, List.map_cons] at ih ⊢
    by_cases h : (c.name == n) = true
    · rw [h]
      simp only [if_true, h, Bool.not_not, ih]
    · rw [Bool.not_eq_true] at h
      rw [h]
      simp only [Bool.false_eq_true, if_false, h, ih]

/-! ## Claim theorems -/

/-- C1, counterexample: a valid 2 MB JPEG is accepted by `handleFileSelect`
on a state that already holds a soil result and crop suggestions, yet the
prior `SoilResult` and `CropSuggestion` list are NOT reset to absent. -/
theorem C1_counterexample :
    strStartsWith sampleFile.type "image/" = true ∧
    sampleFile.size ≤ 10 * 1024 * 1024 ∧
    analyzedState.soilResult ≠ none ∧
    analyzedState.cropSuggestions ≠ [] ∧
    (handleFileSelect sampleFile "blob:2" analyzedState).soilResult =
      analyzedState.soilResult ∧
    (handleFileSelect sampleFile "blob:2" analyzedState).cropSuggestions =
      analyzedState.cropSuggestions := by
  refine ⟨by decide, by norm_num [sampleFile], by simp [analyzedState, sampleSoil],
    by simp [analyzedState, cropsList], ?_, ?_⟩ <;>
    simp [handleFileSelect, sampleFile, pushToast, strStartsWith]

/-- C1, amended: for every file that is an image type and at most 10 MB,
`handleFileSelect` sets the image to present (file stored, preview
reference set); the prior soil result and crop-suggestion list are left
unchanged — they are not reset to absent. -/
theorem C1_select_accept (s : AnalyzerState) (file : FileData) (url : String)
    (ht : strStartsWith file.type "image/" = true)
    (hs : file.size ≤ 10 * 1024 * 1024) :
    (handleFileSelect file url s).selectedFile = some file ∧
    (handleFileSelect file url s).previewUrl = url ∧
    (handleFileSelect file url s).soilResult = s.soilResult ∧
    (handleFileSelect file url s).cropSuggestions = s.cropSuggestions := by
  unfold handleFileSelect
  rw [ht]
  simp [pushToast, Nat.not_lt.mpr hs]

/-- C1, witness for the amended theorem at the sample 2 MB JPEG. -/
theorem C1_select_accept_witness :
    (handleFileSelect sampleFile "blob:2" analyzedState).selectedFile =
      some sampleFile ∧
    (handleFileSelect sampleFile "blob:2" analyzedState).previewUrl =
      "blob:2" ∧
    (handleFileSelect sampleFile "blob:2" analyzedState).soilResult =
      analyzedState.soilResult ∧
    (handleFileSelect sampleFile "blob:2" analyzedState).cropSuggestions =
      analyzedState.cropSuggestions :=
  C1_select_accept analyzedState sampleFile "blob:2" (by decide)
    (by norm_num [sampleFile])

/-- C3: from every state, `clearImage` sets the image to absent, the soil
result to absent and the crop suggestions to the empty list, and when a
preview reference was held it is revoked. -/
theorem C3_clearImage (s : AnalyzerState) :
    (clearImage s).selectedFile = none ∧
    (clearImage s).previewUrl = "" ∧
    (clearImage s).soilResult = none ∧
    (clearImage s).cropSuggestions = [] ∧
    (s.previewUrl ≠ "" →
      (clearImage s).revokedUrls = s.revokedUrls ++ [s.previewUrl]) := by
  by_cases h : s.previewUrl = ""
  · simp [clearImage, pushToast, h]
  · simp [clearImage, pushToast, h]

/-- C3, witness: `clearImage` on the analyzed sample state. -/
theorem C3_clearImage_witness :
    (clearImage analyzedState).selectedFile = none ∧
    (clearImage analyzedState).previewUrl = "" ∧
    (clearImage analyzedState).soilResult = none ∧
    (clearImage analyzedState).cropSuggestions = [] ∧
    (clearImage analyzedState).revokedUrls =
      analyzedState.revokedUrls ++ [analyzedState.previewUrl] := by
  have h := C3_clearImage analyzedState
  exact ⟨h.1, h.2.1, h.2.2.1, h.2.2.2.1,
    h.2.2.2.2 (by simp [analyzedState, initialAnalyzerState])⟩

/-- C9: canceling the settings dialog closes it without rolling back the
live-bound weather-alerts toggle — after open, switch-to-`v`, cancel the
toggle still reads `v` — and `cancelSettings` changes no field other than
the dialog-open flag. -/
theorem C9_settings_cancel (s : HeaderState) (v : Bool) :
    (cancelSettings (setWeatherAlertsAction v (openSettings s))).weatherAlerts
      = v ∧
    (cancelSettings (setWeatherAlertsAction v (openSettings s))).isSettingsOpen
      = false ∧
    (∀ t : HeaderState,
      (cancelSettings t).isSettingsOpen = false ∧
      (cancelSettings t).searchValue = t.searchValue ∧
      (cancelSettings t).weatherAlerts = t.weatherAlerts ∧
      (cancelSettings t).notifications = t.notifications ∧
      (cancelSettings t).isNotificationsOpen = t.isNotificationsOpen ∧
      (cancelSettings t).isMobile = t.isMobile ∧
      (cancelSettings t).toasts = t.toasts) :=
  ⟨rfl, rfl, fun _ => ⟨rfl, rfl, rfl, rfl, rfl, rfl, rfl⟩⟩

/-- C10: invoking `toggleCropSaved` with a crop name that occurs nowhere in
the current suggestion list leaves the entire component state unchanged
(no entry is toggled and no toast is emitted). -/
theorem C10_toggle_missing_name (s : AnalyzerState) (n : String)
    (h : n ∉ s.cropSuggestions.map CropSuggestion.name) :
    toggleCropSaved n s = s := by
  have hfind : s.cropSuggestions.find? (fun c => c.name == n) = none := by
    rw [List.find?_eq_none]
    intro c hc hb
    exact h (List.mem_map.2 ⟨c, hc, beq_iff_eq.1 hb⟩)
  unfold toggleCropSaved
  rw [toggleList_eq_of_not_mem n _ h, hfind]

/-- C10, witness: toggling the absent name `Mango` on the analyzed sample
state is a no-op. -/
theorem C10_toggle_missing_name_witness :
    toggleCropSaved "Mango" analyzedState = analyzedState :=
  C10_toggle_missing_name analyzedState "Mango" (by decide)

/-- A state with a soil result but no weather: `suggestCrops` must fail on
its second guard here. -/
def soilOnlyState : AnalyzerState :=
  { initialAnalyzerState with soilResult := some sampleSoil }

/-- C2: every rejected transition — bad file type or oversized file, manual
location with an empty city, weather fetch without a location, analysis
without an image, crop suggestion without soil or weather — appends a
non-empty error message and leaves every workflow entity (image, preview,
location, weather, soil result, crop suggestions) unchanged. -/
theorem C2_rejections (s : AnalyzerState) :
    (∀ (file : FileData) (url : String),
      strStartsWith file.type "image/" = false ∨
        10 * 1024 * 1024 < file.size →
      entityState (handleFileSelect file url s) = entityState s ∧
      ∃ msg, msg ≠ "" ∧
        (handleFileSelect file url s).toasts = s.toasts ++ [Toast.error msg]) ∧
    (∀ r1 r2 : ℚ, strTrim s.manualLocation.1 = "" →
      entityState (handleManualLocationSubmit r1 r2 s) = entityState s ∧
      ∃ msg, msg ≠ "" ∧
        (handleManualLocationSubmit r1 r2 s).toasts =
          s.toasts ++ [Toast.error msg]) ∧
    (∀ r1 r2 r3 r4 : ℚ, s.location = none →
      entityState (fetchWeather r1 r2 r3 r4 s) = entityState s ∧
      ∃ msg, msg ≠ "" ∧
        (fetchWeather r1 r2 r3 r4 s).toasts = s.toasts ++ [Toast.error msg]) ∧
    (∀ ir rc : ℚ, s.selectedFile = none →
      entityState (analyzeSoil ir rc s) = entityState s ∧
      ∃ msg, msg ≠ "" ∧
        (analyzeSoil ir rc s).toasts = s.toasts ++ [Toast.error msg]) ∧
    (s.soilResult = none ∨ s.weather = none →
      entityState (suggestCrops s) = entityState s ∧
      ∃ msg, msg ≠ "" ∧
        (suggestCrops s).toasts = s.toasts ++ [Toast.error msg]) := by
  refine ⟨?_, ?_, ?_, ?_, ?_⟩
  · intro file url h
    unfold handleFileSelect
    rcases h with h | h
    · rw [h]
      exact ⟨rfl, "Please select a valid image file (JPEG or PNG)",
        by decide, rfl⟩
    · by_cases hb : strStartsWith file.type "image/"
      · rw [hb, Bool.not_true, if_neg (by simp), if_pos h]
        exact ⟨rfl, "Image size must be less than 10MB", by decide, rfl⟩
      · rw [Bool.not_eq_true] at hb
        rw [hb]
        exact ⟨rfl, "Please select a valid image file (JPEG or PNG)",
          by decide, rfl⟩
  · intro r1 r2 h
    unfold handleManualLocationSubmit
    rw [if_pos h]
    exact ⟨rfl, "Please enter a city name", by decide, rfl⟩
  · intro r1 r2 r3 r4 h
    unfold fetchWeather
    rw [if_pos h]
    exact ⟨rfl, "Please set location first", by decide, rfl⟩
  · intro ir rc h
    unfold analyzeSoil
    rw [if_pos h]
    exact ⟨rfl, "Please upload an image first", by decide, rfl⟩
  · intro h
    unfold suggestCrops
    by_cases hs : s.soilResult = none
    · rw [if_pos hs]
      exact ⟨rfl, "Please analyze soil first", by decide, rfl⟩
    · rcases h with h | h
      · exact absurd h hs
      · rw [if_neg hs, if_pos h]
        exact ⟨rfl, "Weather data required for crop suggestions",
          by decide, rfl⟩

/-- C2, witness: each of the five rejections exercised at a concrete state
(the initial state, with a PDF file for the file-select case). -/
theorem C2_rejections_witness :
    (entityState (handleFileSelect badFile "u" initialAnalyzerState) =
        entityState initialAnalyzerState ∧
      ∃ msg, msg ≠ "" ∧
        (handleFileSelect badFile "u" initialAnalyzerState).toasts =
          initialAnalyzerState.toasts ++ [Toast.error msg]) ∧
    (entityState (handleManualLocationSubmit 0 0 initialAnalyzerState) =
        entityState initialAnalyzerState ∧
      ∃ msg, msg ≠ "" ∧
        (handleManualLocationSubmit 0 0 initialAnalyzerState).toasts =
          initialAnalyzerState.toasts ++ [Toast.error msg]) ∧
    (entityState (fetchWeather 0 0 0 0 initialAnalyzerState) =
        entityState initialAnalyzerState ∧
      ∃ msg, msg ≠ "" ∧
        (fetchWeather 0 0 0 0 initialAnalyzerState).toasts =
          initialAnalyzerState.toasts ++ [Toast.error msg]) ∧
    (entityState (analyzeSoil 0 0 initialAnalyzerState) =
        entityState initialAnalyzerState ∧
      ∃ msg, msg ≠ "" ∧
        (analyzeSoil 0 0 initialAnalyzerState).toasts =
          initialAnalyzerState.toasts ++ [Toast.error msg]) ∧
    (entityState (suggestCrops initialAnalyzerState) =
        entityState initialAnalyzerState ∧
      ∃ msg, msg ≠ "" ∧
        (suggestCrops initialAnalyzerState).toasts =
          initialAnalyzerState.toasts ++ [Toast.error msg]) :=
  ⟨(C2_rejections initialAnalyzerState).1 badFile "u" (Or.inl (by decide)),
   (C2_rejections initialAnalyzerState).2.1 0 0 (by decide),
   (C2_rejections initialAnalyzerState).2.2.1 0 0 0 0 rfl,
   (C2_rejections initialAnalyzerState).2.2.2.1 0 0 rfl,
   (C2_rejections initialAnalyzerState).2.2.2.2 (Or.inl rfl)⟩

/-- C4: `suggestCrops` is rejected when the soil result is absent (with the
soil-specific message) and, when soil is present but weather is absent,
with a different weather-specific message; with both present it is accepted
and commits the crop list; the two error messages are distinct. -/
theorem C4_suggest_guards (s : AnalyzerState) :
    (s.soilResult = none →
      entityState (suggestCrops s) = entityState s ∧
      (suggestCrops s).toasts =
        s.toasts ++ [Toast.error "Please analyze soil first"]) ∧
    (s.soilResult ≠ none → s.weather = none →
      entityState (suggestCrops s) = entityState s ∧
      (suggestCrops s).toasts =
        s.toasts ++ [Toast.error "Weather data required for crop suggestions"]) ∧
    (s.soilResult ≠ none → s.weather ≠ none →
      (suggestCrops s).cropSuggestions = cropsList) ∧
    Toast.error "Please analyze soil first" ≠
      Toast.error "Weather data required for crop suggestions" := by
  refine ⟨?_, ?_, ?_, by decide⟩
  · intro h
    unfold suggestCrops
    rw [if_pos h]
    exact ⟨rfl, rfl⟩
  · intro h1 h2
    unfold suggestCrops
    rw [if_neg h1, if_pos h2]
    exact ⟨rfl, rfl⟩
  · intro h1 h2
    unfold suggestCrops
    rw [if_neg h1, if_neg h2]
    rfl

/-- C4, witness: the three guard outcomes at concrete states (no soil, soil
without weather, soil and weather). -/
theorem C4_suggest_guards_witness :
    (entityState (suggestCrops initialAnalyzerState) =
        entityState initialAnalyzerState ∧
      (suggestCrops initialAnalyzerState).toasts =
        initialAnalyzerState.toasts ++ [Toast.error "Please analyze soil first"]) ∧
    (entityState (suggestCrops soilOnlyState) = entityState soilOnlyState ∧
      (suggestCrops soilOnlyState).toasts =
        soilOnlyState.toasts ++
          [Toast.error "Weather data required for crop suggestions"]) ∧
    (suggestCrops analyzedState).cropSuggestions = cropsList :=
  ⟨(C4_suggest_guards initialAnalyzerState).1 rfl,
   (C4_suggest_guards soilOnlyState).2.1 (by decide) rfl,
   (C4_suggest_guards analyzedState).2.2.1 (by decide) (by decide)⟩

/-- C5: when `suggestCrops` is accepted (soil result and weather both
present), the committed crop-suggestion list has exactly 4 entries and
every entry has `saved = false`. -/
theorem C5_suggest_result (s : AnalyzerState)
    (hs : s.soilResult ≠ none) (hw : s.weather ≠ none) :
    (suggestCrops s).cropSuggestions.length = 4 ∧
    ∀ c ∈ (suggestCrops s).cropSuggestions, c.saved = false := by
  unfold suggestCrops
  rw [if_neg hs, if_neg hw]
  refine ⟨rfl, ?_⟩
  intro c hc
  simp only [pushToast] at hc
  simp only [cropsList, List.mem_cons, List.not_mem_nil, or_false] at hc
  rcases hc with h | h | h | h <;> rw [h]

/-- C5, witness: `suggestCrops` on the analyzed sample state. -/
theorem C5_suggest_result_witness :
    (suggestCrops analyzedState).cropSuggestions.length = 4 ∧
    ∀ c ∈ (suggestCrops analyzedState).cropSuggestions, c.saved = false :=
  C5_suggest_result analyzedState (by decide) (by decide)

/-- C6: toggling a crop name that occurs in the suggestion list twice
restores the original list, and a single toggle maps each position to
itself unless its entry carries the targeted name, in which case only the
`saved` flag is flipped (all other fields kept). -/
theorem C6_toggle_saved (l : List CropSuggestion) (n : String)
    (hmem : n ∈ l.map CropSuggestion.name) :
    toggleList n (toggleList n l) = l ∧
    ∀ i : Nat, (toggleList n l)[i]? =
      (l[i]?).map fun c =>
        if c.name == n then { c with saved := !c.saved } else c := by
  refine ⟨toggleList_toggleList n l, ?_⟩
  intro i
  unfold toggleList
  exact List.getElem?_map _ l i

/-- C6, witness: toggling `Tomatoes` on the fixed crop list. -/
theorem C6_toggle_saved_witness :
    toggleList "Tomatoes" (toggleList "Tomatoes" cropsList) = cropsList ∧
    ∀ i : Nat, (toggleList "Tomatoes" cropsList)[i]? =
      ((cropsList)[i]?).map fun c =>
        if c.name == "Tomatoes" then { c with saved := !c.saved } else c :=
  C6_toggle_saved cropsList "Tomatoes" (by decide)

/-- C7: from every state, `resetAll` restores every workflow entity to its
initial empty value — image, preview, location, manual entry, weather, soil
result, crop suggestions, comparison selection, expanded crop — and a held
preview reference is released. -/
theorem C7_resetAll (s : AnalyzerState) :
    (resetAll s).selectedFile = none ∧
    (resetAll s).previewUrl = "" ∧
    (resetAll s).location = none ∧
    (resetAll s).manualLocation = ("", "") ∧
    (resetAll s).showManualLocation = false ∧
    (resetAll s).weather = none ∧
    (resetAll s).soilResult = none ∧
    (resetAll s).cropSuggestions = [] ∧
    (resetAll s).selectedCropsForComparison = [] ∧
    (resetAll s).expandedCrop = none ∧
    (s.previewUrl ≠ "" → s.previewUrl ∈ (resetAll s).revokedUrls) := by
  unfold resetAll
  by_cases h : s.previewUrl = "" <;> simp [clearImage, pushToast, h]

/-- C7, witness: `resetAll` on the analyzed sample state, whose preview
reference `blob:1` ends up released. -/
theorem C7_resetAll_witness :
    (resetAll analyzedState).selectedFile = none ∧
    (resetAll analyzedState).previewUrl = "" ∧
    (resetAll analyzedState).location = none ∧
    (resetAll analyzedState).manualLocation = ("", "") ∧
    (resetAll analyzedState).showManualLocation = false ∧
    (resetAll analyzedState).weather = none ∧
    (resetAll analyzedState).soilResult = none ∧
    (resetAll analyzedState).cropSuggestions = [] ∧
    (resetAll analyzedState).selectedCropsForComparison = [] ∧
    (resetAll analyzedState).expandedCrop = none ∧
    analyzedState.previewUrl ∈ (resetAll analyzedState).revokedUrls := by
  have h := C7_resetAll analyzedState
  exact ⟨h.1, h.2.1, h.2.2.1, h.2.2.2.1, h.2.2.2.2.1, h.2.2.2.2.2.1,
    h.2.2.2.2.2.2.1, h.2.2.2.2.2.2.2.1, h.2.2.2.2.2.2.2.2.1,
    h.2.2.2.2.2.2.2.2.2.1, h.2.2.2.2.2.2.2.2.2.2 (by decide)⟩

/-- Each of the four `soilTypes` candidates carries one of the four fixed
soil type labels. -/
lemma soilTypes_getD_type_mem (i : Nat) (hi : i < 4) :
    (soilTypes.getD i default).type ∈
      ["Clay Loam", "Sandy Loam", "Silt Loam", "Clay"] := by
  interval_cases i <;> decide

/-- C8: with an image present and random draws in `[0, 1)`, `analyzeSoil`
commits a soil result whose type is one of the 4 fixed soil types and whose
confidence is an integer in `[75, 95]`; with no image present it is
rejected with an error message and the workflow entities are unchanged. -/
theorem C8_analyze (s : AnalyzerState) (ir rc : ℚ) :
    (s.selectedFile ≠ none → 0 ≤ ir → ir < 1 → 0 ≤ rc → rc < 1 →
      ∃ res, (analyzeSoil ir rc s).soilResult = some res ∧
        res.type ∈ ["Clay Loam", "Sandy Loam", "Silt Loam", "Clay"] ∧
        75 ≤ res.confidence ∧ res.confidence ≤ 95) ∧
    (s.selectedFile = none →
      entityState (analyzeSoil ir rc s) = entityState s ∧
      (analyzeSoil ir rc s).toasts =
        s.toasts ++ [Toast.error "Please upload an image first"]) := by
  constructor
  · intro himg hir0 hir1 hrc0 hrc1
    have hidx : Int.toNat (jsFloor (ir * 4)) < 4 := by
      have h4 : jsFloor (ir * 4) < 4 := by
        apply Int.floor_lt.2
        push_cast
        nlinarith
      omega
    have hconf1 : (75 : Int) ≤ jsRound (75 + rc * 20) := by
      apply Int.le_floor.2
      push_cast
      nlinarith
    have hconf2 : jsRound (75 + rc * 20) ≤ 95 := by
      have h96 : jsRound (75 + rc * 20) < 96 := by
        apply Int.floor_lt.2
        push_cast
        nlinarith
      omega
    unfold analyzeSoil
    rw [if_neg himg]
    exact ⟨_, rfl, soilTypes_getD_type_mem _ hidx, hconf1, hconf2⟩
  · intro h
    unfold analyzeSoil
    rw [if_pos h]
    exact ⟨rfl, rfl⟩

/-- C8, witness: the accepted branch at the analyzed sample state with both
draws `1/2`, and the rejected branch at the initial state. -/
theorem C8_analyze_witness :
    (∃ res, (analyzeSoil (1 / 2) (1 / 2) analyzedState).soilResult = some res ∧
      res.type ∈ ["Clay Loam", "Sandy Loam", "Silt Loam", "Clay"] ∧
      75 ≤ res.confidence ∧ res.confidence ≤ 95) ∧
    (entityState (analyzeSoil (1 / 2) (1 / 2) initialAnalyzerState) =
        entityState initialAnalyzerState ∧
      (analyzeSoil (1 / 2) (1 / 2) initialAnalyzerState).toasts =
        initialAnalyzerState.toasts ++ [Toast.error "Please upload an image first"]) :=
  ⟨(C8_analyze analyzedState (1 / 2) (1 / 2)).1 (by decide) (by norm_num)
      (by norm_num) (by norm_num) (by norm_num),
   (C8_analyze initialAnalyzerState (1 / 2) (1 / 2)).2 rfl⟩
